import Mathlib

/-!
Verification of the template materializer and manifest configurator of
create-fast-turbo (src/bin/create-fast-turbo.js).

The program walks a fixed template directory tree, copies it into a fresh
destination while filtering entries against a built-in ignore-pattern list
(shouldIgnore / IGNORE_PATTERNS / instantScaffold, lines 19-97), then rewrites
the root package.json and workspace files for the chosen package manager
(configurePackageManager, lines 100-133).  The main function (lines 227-381)
refuses a pre-existing target directory and, on any fatal error, removes a
directory recomputed from argv before exiting with code 1.

The filesystem is modelled as an inductive tree.  A symbolic-link node carries
the outcome of the program's own resolution steps (readlink + path.resolve +
pathExists, lines 74-77): either LinkResolution.dead (readlink failed or the
resolved path does not exist as a filesystem object) or
LinkResolution.target rel node, where node is the entry lstat finds at the
resolved path and rel is that path written relative to the template root
(the string path.relative(templateDir, resolvedPath)).  Cyclic symbolic links
are outside the inductive model; the spec itself notes they make the code
recurse without bound.
-/

mutual
/-- Filesystem node under the template root: a regular file (with its
content), a directory (with its ordered child list, as returned by readdir),
or a symbolic link together with the result of resolving it. -/
inductive FsNode where
  | file (content : String)
  | dir (children : FsEntries)
  | symlink (resolved : LinkResolution)
deriving Repr
inductive LinkResolution where
  | dead
  | target (rel : String) (node : FsNode)
deriving Repr
inductive FsEntries where
  | nil
  | cons (name : String) (node : FsNode) (rest : FsEntries)
deriving Repr
end

mutual
/-- Destination node produced by materialization.  The symlink constructor
records that fs.copy reproduced a symbolic link verbatim in the destination
(fs-extra copy does not dereference a source that is itself a symlink). -/
inductive OutNode where
  | file (content : String)
  | dir (children : OutEntries)
  | symlink
deriving Repr
inductive OutEntries where
  | nil
  | cons (name : String) (node : OutNode) (rest : OutEntries)
deriving Repr
end

/-- Token of the tiny regular-expression language the ignore filter builds:
a literal character, the metacharacter dot (any character except a line
terminator), or dot-star (the code replaces every asterisk of a pattern by
the two-character sequence dot star, line 41). -/
inductive Tok where
  | lit (c : Char)
  | dot
  | star
deriving Repr, DecidableEq

/-- Characters matched by the regular-expression metacharacter dot in
JavaScript without the s flag: everything except the four line
terminators. -/
def isDotChar (c : Char) : Bool :=
  c != '\n' && c != '\r' && c != Char.ofNat 0x2028 && c != Char.ofNat 0x2029

/-- Suffixes of a character list reachable by deleting a prefix of
dot-matching characters: exactly the remainders a dot-star can leave for the
rest of the pattern. -/
def dotStarSuffixes : List Char → List (List Char)
  | [] => [[]]
  | c :: cs => (c :: cs) :: (if isDotChar c then dotStarSuffixes cs else [])

/-- All suffixes of a character list: the start positions an unanchored
regular-expression search tries. -/
def allSuffixes : List Char → List (List Char)
  | [] => [[]]
  | c :: cs => (c :: cs) :: allSuffixes cs

/-- Matching of a token list at the start of a character list; the match may
end anywhere (trailing input is allowed, as for an unanchored RegExp). -/
def matchHere : List Tok → List Char → Bool
  | [], _ => true
  | .lit _ :: _, [] => false
  | .lit c :: ts, x :: xs => c == x && matchHere ts xs
  | .dot :: _, [] => false
  | .dot :: ts, x :: xs => isDotChar x && matchHere ts xs
  | .star :: ts, xs => (dotStarSuffixes xs).any (fun s => matchHere ts s)

/-- Translation of an ignore pattern into tokens, modelling
new RegExp(pattern.replace(/\*/g, ".*")) on line 41: each asterisk becomes
dot-star, each dot stays a metacharacter, every other character is a literal.
(The built-in patterns contain no other regular-expression metacharacter, so
this token language covers them all.) -/
def translatePattern (p : String) : List Tok :=
  p.toList.map (fun c => if c == '*' then Tok.star else if c == '.' then Tok.dot else Tok.lit c)

/-- Unanchored regular-expression test, modelling regex.test(s) on line 42:
the translated pattern may match starting at any position of s. -/
def regexTest (p : String) (s : String) : Bool :=
  (allSuffixes s.toList).any (fun t => matchHere (translatePattern p) t)

/-- Files and folders to ignore during copy (lines 19-33). -/
def IGNORE_PATTERNS : List String :=
  ["node_modules", ".git", ".next", ".turbo", "dist", "out", ".vercel",
   ".cache", ".DS_Store", "*.env*", "package-lock.json", "yarn.lock",
   "pnpm-lock.yaml"]

/-- Test of one ignore pattern against an entry (loop body of shouldIgnore,
lines 39-48): a pattern containing an asterisk is tested as an unanchored
regular expression against the base name and the root-relative path; any
other pattern must equal one of the two exactly. -/
def matchesRule (pattern basename relativePath : String) : Bool :=
  if pattern.toList.contains '*' then
    regexTest pattern basename || regexTest pattern relativePath
  else
    basename == pattern || relativePath == pattern

/-- Ignore filter (shouldIgnore, lines 36-51).  The code receives the full
source path and takes its base name; readdir entries contain no separator, so
the base name is the entry name itself and the model takes it directly. -/
def shouldIgnore (basename relativePath : String) : Bool :=
  IGNORE_PATTERNS.any (fun pattern => matchesRule pattern basename relativePath)

/-- Root-relative path of a child entry, modelling
path.relative(templateDir, path.join(src, item)) on line 64, where rel is the
root-relative path of the current source directory (empty at the template
root). -/
def childRel (rel item : String) : String :=
  if rel == "" then item else rel ++ "/" ++ item

/-- Liveness of a resolved link target, modelling fs.pathExists(resolvedPath)
on line 77: pathExists follows links, so a chain of links is live exactly
when it ends in a file or directory. -/
def chainLive : FsNode → Bool
  | .file _ => true
  | .dir _ => true
  | .symlink .dead => false
  | .symlink (.target _ t) => chainLive t

/-- Materializer loop (instantScaffold, lines 54-97) over the readdir listing
of one source directory.  rel is the root-relative path of that directory.
Per entry: the ignore filter runs first (line 66); a symbolic link is
resolved, skipped when dead (lines 73-87), recursed into when its target is a
directory (line 80), content-copied when its target is a file (line 82), and
copied as a link by fs.copy when the resolved path is itself a symbolic link
(lstat on line 78 reports it as neither directory nor file); a directory is
recursed into (line 89); a regular file is copied (line 91). -/
def scaffoldChildren : FsEntries → String → OutEntries
  | .nil, _ => .nil
  | .cons item node rest, rel =>
    let relativePath := childRel rel item
    if shouldIgnore item relativePath then
      scaffoldChildren rest rel
    else
      match node with
      | .symlink .dead => scaffoldChildren rest rel
      | .symlink (.target targetRel t) =>
        if chainLive t then
          match t with
          | .dir cs => .cons item (.dir (scaffoldChildren cs targetRel)) (scaffoldChildren rest rel)
          | .file c => .cons item (.file c) (scaffoldChildren rest rel)
          | .symlink _ => .cons item .symlink (scaffoldChildren rest rel)
        else
          scaffoldChildren rest rel
      | .dir cs => .cons item (.dir (scaffoldChildren cs relativePath)) (scaffoldChildren rest rel)
      | .file c => .cons item (.file c) (scaffoldChildren rest rel)

/-- Top-level materializer call: instantScaffold(templateDir, targetDir) on
line 315, so the root-relative path of the first listed directory is
empty. -/
def instantScaffold (root : FsEntries) : OutEntries :=
  scaffoldChildren root ""

mutual
/-- Absence of symbolic links in a destination tree. -/
def linkFreeN : OutNode → Bool
  | .file _ => true
  | .dir cs => linkFreeE cs
  | .symlink => false
def linkFreeE : OutEntries → Bool
  | .nil => true
  | .cons _ n rest => linkFreeN n && linkFreeE rest
end

mutual
/-- Absence of link-to-link chains in a template tree: no symbolic link
resolves to a path that is itself a symbolic link. -/
def noChainsN : FsNode → Bool
  | .file _ => true
  | .dir cs => noChainsE cs
  | .symlink .dead => true
  | .symlink (.target _ (.symlink _)) => false
  | .symlink (.target _ t) => noChainsN t
def noChainsE : FsEntries → Bool
  | .nil => true
  | .cons _ n rest => noChainsN n && noChainsE rest
end

mutual
/-- Specification-side materializer, following the spec's words: the
destination is exactly the template's structure minus every entry matching
the ignore rules, with every symbolic link whose target exists replaced by a
physical copy (file content, or recursively materialized directory) of its
resolved target, and dead links dropped. -/
def specMaterialize : FsEntries → String → OutEntries
  | .nil, _ => .nil
  | .cons n e rest, rel =>
    if shouldIgnore n (childRel rel n) then
      specMaterialize rest rel
    else
      match specRender e (childRel rel n) with
      | some o => .cons n o (specMaterialize rest rel)
      | none => specMaterialize rest rel
def specRender : FsNode → String → Option OutNode
  | .file c, _ => some (.file c)
  | .dir cs, here => some (.dir (specMaterialize cs here))
  | .symlink .dead, _ => none
  | .symlink (.target rp t), _ => specRender t rp
end

/-- Manifest read from the destination's package.json (fs.readJson on line
104): the fields the configurator touches, plus the remaining key-value pairs,
which the read-modify-write cycle leaves untouched. -/
structure Manifest where
  name : Option String
  packageManager : Option String
  workspaces : Option (List String)
  rest : List (String × String)
deriving Repr, DecidableEq

/-- Observable state of the destination root for the configurator: the parsed
contents of package.json when that file exists, and whether
pnpm-workspace.yaml is present. -/
structure DestState where
  manifest : Option Manifest
  pnpmWorkspaceYaml : Bool
deriving Repr, DecidableEq

/-- In-memory manifest mutation of configurePackageManager (lines 107-116):
set name to the project name; for npm delete packageManager; for yarn pin
packageManager and overwrite workspaces; otherwise (the default pnpm branch)
pin packageManager to pnpm. -/
def mutateManifest (m : Manifest) (packageManager projectName : String) : Manifest :=
  let m1 := { m with name := some projectName }
  if packageManager == "npm" then
    { m1 with packageManager := none }
  else if packageManager == "yarn" then
    { m1 with packageManager := some "yarn@4.0.0", workspaces := some ["apps/*", "packages/*"] }
  else
    { m1 with packageManager := some "pnpm@9.0.0" }

/-- Configurator (configurePackageManager, lines 100-133): if package.json
exists, read it, mutate it in memory and write it back; then, for npm and for
yarn, remove pnpm-workspace.yaml when present (lines 122-132); the pnpm
branch leaves the workspace file alone. -/
def configurePackageManager (st : DestState) (packageManager projectName : String) : DestState :=
  let st1 :=
    match st.manifest with
    | some m => { st with manifest := some (mutateManifest m packageManager projectName) }
    | none => st
  if packageManager == "npm" then
    if st1.pnpmWorkspaceYaml then { st1 with pnpmWorkspaceYaml := false } else st1
  else if packageManager == "yarn" then
    if st1.pnpmWorkspaceYaml then { st1 with pnpmWorkspaceYaml := false } else st1
  else
    st1

/-- Failure point of a filesystem operation inside the configurator. -/
inductive CfgError where
  | readFailed
  | writeFailed
  | removeFailed
deriving Repr, DecidableEq

/-- Workspace-file step of the configurator (lines 121-132) in the effectful
model: for npm and for yarn, remove pnpm-workspace.yaml when present; the
flag f says whether that remove call fails. -/
def removeWorkspaceStep (st : DestState) (packageManager : String) (f : Bool) :
    Option CfgError × DestState :=
  if packageManager == "npm" then
    if st.pnpmWorkspaceYaml then
      if f then (some .removeFailed, st) else (none, { st with pnpmWorkspaceYaml := false })
    else (none, st)
  else if packageManager == "yarn" then
    if st.pnpmWorkspaceYaml then
      if f then (some .removeFailed, st) else (none, { st with pnpmWorkspaceYaml := false })
    else (none, st)
  else (none, st)

/-- Effectful run of the configurator with a fault oracle: fault i tells
whether the i-th fallible filesystem call of the run (readJson, writeJson,
remove, in the order the code issues them) fails.  The code has no catch, so
the first failure aborts the run and propagates; the state returned is what
is on disk at that moment.  Each call is modelled as atomic: readJson covers
read and parse, and writeJson writes the complete mutated object in one call
(line 118), never a partially-mutated manifest. -/
def configurePackageManagerRun (st : DestState) (packageManager projectName : String)
    (fault : Nat → Bool) : Option CfgError × DestState :=
  match st.manifest with
  | some m =>
    if fault 0 then (some .readFailed, st)
    else
      let m1 := mutateManifest m packageManager projectName
      if fault 1 then (some .writeFailed, st)
      else removeWorkspaceStep { st with manifest := some m1 } packageManager (fault 2)
  | none => removeWorkspaceStep st packageManager (fault 0)

/-- Truthiness of argv[0] in JavaScript: the empty string is falsy, every
other string is truthy. -/
def truthyHead : List String → Option String
  | [] => none
  | a :: _ => if a == "" then none else some a

/-- Project name main actually scaffolds (lines 248-267): argv[0] when
truthy, otherwise the interactively prompted name. -/
def mainProjectName (args : List String) (promptedName : String) : String :=
  (truthyHead args).getD promptedName

/-- Directory name the catch block of main removes (line 367):
args[0] || "my-app", recomputed from argv without consulting the prompt. -/
def cleanupProjectName (args : List String) : String :=
  (truthyHead args).getD "my-app"

/-- Prefix test on character lists, used to model String.prototype.startsWith. -/
def startsWithChars : List Char → List Char → Bool
  | [], _ => true
  | _ :: _, [] => false
  | p :: ps, c :: cs => p == c && startsWithChars ps cs

/-- Split of a character list at every occurrence of a separator, modelling
String.prototype.split with a one-character separator. -/
def splitOnChar (sep : Char) : List Char → List (List Char)
  | [] => [[]]
  | c :: cs =>
    match splitOnChar sep cs with
    | [] => [[]]
    | g :: gs => if c == sep then [] :: g :: gs else (c :: g) :: gs

/-- Predicate of args.find on line 272: an argument selects a package manager
when it starts with the key=value prefix or is one of the three flags. -/
def isPackageManagerArg (arg : String) : Bool :=
  startsWithChars "--package-manager=".toList arg.toList ||
    arg == "--npm" || arg == "--pnpm" || arg == "--yarn"

/-- Package-manager selection from argv (lines 270-280): the first matching
argument wins; the key=value form takes the text after the first equals sign
verbatim (split('=')[1]); with no matching argument the interactive answer is
used (lines 282-297). -/
def parsePackageManager (args : List String) (promptedPM : String) : String :=
  match args.find? isPackageManagerArg with
  | some a =>
    if a == "--npm" then "npm"
    else if a == "--pnpm" then "pnpm"
    else if a == "--yarn" then "yarn"
    else if startsWithChars "--package-manager=".toList a.toList then
      String.mk (((splitOnChar '=' a.toList).get? 1).getD [])
    else "pnpm"
  | none => promptedPM

/-- Exit status of a run of main. -/
inductive MainOutcome where
  | exitSuccess
  | exitFailure
deriving Repr, DecidableEq

/-- Outcome-relevant slice of main (lines 299-380) from the target-existence
check onward, for a run in which template validation and prompting already
succeeded.  The filesystem is the list of directory names present in the
working directory.  If the target exists, main prints an error and exits 1
before touching anything (lines 303-307).  Otherwise scaffolding creates the
target directory; scaffoldFails says whether instantScaffold or
configurePackageManager then throws, landing in the catch block (lines
362-380), which recomputes a directory name from argv (args[0] || "my-app"),
removes that directory when present (removeFails says whether fs.remove
itself fails, which is only reported), and exits 1.  On success the populated
target remains and main exits 0. -/
def mainRun (args : List String) (promptedName : String) (fs : List String)
    (scaffoldFails removeFails : Bool) : MainOutcome × List String :=
  let projectName := mainProjectName args promptedName
  let targetDir := projectName
  if fs.contains targetDir then (.exitFailure, fs)
  else
    let fs1 := targetDir :: fs
    if scaffoldFails then
      let cleanupDir := cleanupProjectName args
      if fs1.contains cleanupDir then
        if removeFails then (.exitFailure, fs1) else (.exitFailure, fs1.erase cleanupDir)
      else (.exitFailure, fs1)
    else (.exitSuccess, fs1)

/-- Three consecutive characters spelling env at the head of a character
list. -/
def startsWithEnvChars : List Char → Bool
  | a :: b :: c :: _ => 'e' == a && ('n' == b && ('v' == c && true))
  | _ => false

/-- Head of a character list is any non-line-terminator character immediately
followed by the text env. -/
def startsDotEnv : List Char → Bool
  | [] => false
  | c :: rest => isDotChar c && startsWithEnvChars rest

/-- Some position of the character list holds a non-line-terminator character
immediately followed by the text env. -/
def hasCharEnv : List Char → Bool
  | [] => false
  | c :: rest => (isDotChar c && startsWithEnvChars rest) || hasCharEnv rest

/-- Small concrete template used as witness input: two kept entries, an
ignored directory, and a live symbolic link to a directory. -/
def egTemplate : FsEntries :=
  .cons "apps" (.dir (.cons "x.txt" (.file "1") .nil))
    (.cons "node_modules" (.dir (.cons "junk" (.file "j") .nil))
      (.cons "lnk" (.symlink (.target "apps" (.dir (.cons "x.txt" (.file "1") .nil)))) .nil))

/-- Concrete template containing a symbolic-link chain: lnk resolves to mid,
which is itself a live symbolic link to the regular file data.txt. -/
def chainTemplate : FsEntries :=
  .cons "lnk" (.symlink (.target "mid" (.symlink (.target "data.txt" (.file "x")))))
    (.cons "mid" (.symlink (.target "data.txt" (.file "x")))
      (.cons "data.txt" (.file "x") .nil))

/-- Concrete manifest used as witness input. -/
def egManifest : Manifest :=
  { name := some "template", packageManager := some "pnpm@9.0.0",
    workspaces := none, rest := [("private", "true")] }

theorem matchHere_star (xs : List Char) : matchHere [Tok.star] xs = true := by
  cases xs <;> simp [matchHere, dotStarSuffixes]

theorem dotStar_any_true (t : List Char) : (dotStarSuffixes t).any (fun _ => true) = true := by
  cases t <;> simp [dotStarSuffixes]

theorem matchHere_env (r : List Char) :
    matchHere [Tok.lit 'e', Tok.lit 'n', Tok.lit 'v', Tok.star] r = startsWithEnvChars r := by
  rcases r with _ | ⟨a, _ | ⟨b, _ | ⟨c, t⟩⟩⟩ <;>
    simp [matchHere, startsWithEnvChars, dotStar_any_true]

theorem matchHere_dotenv (r : List Char) :
    matchHere [Tok.dot, Tok.lit 'e', Tok.lit 'n', Tok.lit 'v', Tok.star] r = startsDotEnv r := by
  cases r <;> simp [matchHere, startsDotEnv, matchHere_env]

theorem translate_env_pattern :
    translatePattern "*.env*" =
      [Tok.star, Tok.dot, Tok.lit 'e', Tok.lit 'n', Tok.lit 'v', Tok.star] := by
  decide

theorem matchHere_env_pattern (xs : List Char) :
    matchHere (translatePattern "*.env*") xs = (dotStarSuffixes xs).any startsDotEnv := by
  rw [translate_env_pattern]
  show (dotStarSuffixes xs).any (fun s => matchHere [Tok.dot, Tok.lit 'e', Tok.lit 'n', Tok.lit 'v', Tok.star] s) = _
  simp only [matchHere_dotenv]

theorem dotStar_any_imp (xs : List Char)
    (h : (dotStarSuffixes xs).any startsDotEnv = true) : hasCharEnv xs = true := by
  induction xs with
  | nil => simp [dotStarSuffixes, startsDotEnv] at h
  | cons c cs ih =>
    simp only [dotStarSuffixes, List.any_cons, Bool.or_eq_true] at h
    rcases h with h | h
    · simp [hasCharEnv, startsDotEnv] at h ⊢
      exact Or.inl h
    · by_cases hc : isDotChar c = true
      · simp only [hc, if_true] at h
        simp [hasCharEnv, ih h]
      · simp [hc] at h

theorem allSuffixes_any_env (l : List Char) :
    (allSuffixes l).any (fun t => (dotStarSuffixes t).any startsDotEnv) = hasCharEnv l := by
  induction l with
  | nil => simp [allSuffixes, dotStarSuffixes, startsDotEnv, hasCharEnv]
  | cons c cs ih =>
    simp only [allSuffixes, List.any_cons, ih]
    simp only [dotStarSuffixes, List.any_cons]
    by_cases hD : (if isDotChar c then dotStarSuffixes cs else []).any startsDotEnv = true
    · have hcs : hasCharEnv cs = true := by
        by_cases hc : isDotChar c = true
        · exact dotStar_any_imp cs (by simpa [hc] using hD)
        · simp [hc] at hD
      simp [hD, hcs, hasCharEnv, startsDotEnv]
    · simp only [Bool.not_eq_true] at hD
      simp [hD, hasCharEnv, startsDotEnv]

theorem regexTest_env (s : String) : regexTest "*.env*" s = hasCharEnv s.toList := by
  unfold regexTest
  simp only [matchHere_env_pattern]
  exact allSuffixes_any_env s.toList

theorem env_rule_mem : "*.env*" ∈ IGNORE_PATTERNS := by decide

theorem env_ignored (b r : String) (h : hasCharEnv b.toList = true) :
    shouldIgnore b r = true := by
  unfold shouldIgnore
  refine List.any_eq_true.mpr ⟨"*.env*", env_rule_mem, ?_⟩
  unfold matchesRule
  rw [if_pos (by decide)]
  simp only [regexTest_env, Bool.or_eq_true]
  exact Or.inl h

theorem scaffold_skip (item : String) (node : FsNode) (rest : FsEntries) (rel : String)
    (h : shouldIgnore item (childRel rel item) = true) :
    scaffoldChildren (.cons item node rest) rel = scaffoldChildren rest rel := by
  rw [scaffoldChildren.eq_def]
  simp [h]

theorem scaffold_eq_spec (e : FsEntries) (rel : String) :
    noChainsE e = true → scaffoldChildren e rel = specMaterialize e rel := by
  induction e, rel using scaffoldChildren.induct with
  | case1 rel => intro _; simp [scaffoldChildren, specMaterialize]
  | case2 item node rest rel relPath hIg ihRest =>
    intro hnc
    simp only [noChainsE, Bool.and_eq_true] at hnc
    rw [scaffold_skip _ _ _ _ hIg, ihRest hnc.2]
    conv_rhs => rw [specMaterialize.eq_def]
    simp [hIg]
  | case3 item rest rel relPath hIg ihRest =>
    intro hnc
    simp only [noChainsE, Bool.and_eq_true] at hnc
    rw [scaffoldChildren.eq_def, specMaterialize.eq_def]
    simp [hIg, specRender, ihRest hnc.2]
  | case4 item rest rel relPath hIg targetRel cs hlive ihCs ihRest =>
    intro hnc
    simp only [noChainsE, noChainsN, Bool.and_eq_true] at hnc
    rw [scaffoldChildren.eq_def, specMaterialize.eq_def]
    simp [hIg, chainLive, specRender, ihCs hnc.1, ihRest hnc.2]
  | case5 item rest rel relPath hIg targetRel c hlive ihRest =>
    intro hnc
    simp only [noChainsE, Bool.and_eq_true] at hnc
    rw [scaffoldChildren.eq_def, specMaterialize.eq_def]
    simp [hIg, chainLive, specRender, ihRest hnc.2]
  | case6 item rest rel relPath hIg targetRel resolved hlive ihRest =>
    intro hnc
    simp [noChainsE, noChainsN] at hnc
  | case7 item rest rel relPath hIg targetRel t hNotLive ihRest =>
    intro hnc
    simp only [noChainsE, Bool.and_eq_true] at hnc
    cases t with
    | file c => simp [chainLive] at hNotLive
    | dir cs => simp [chainLive] at hNotLive
    | symlink r =>
      have := hnc.1
      simp [noChainsN] at this
  | case8 item rest rel relPath hIg cs ihCs ihRest =>
    intro hnc
    simp only [noChainsE, noChainsN, Bool.and_eq_true] at hnc
    rw [scaffoldChildren.eq_def, specMaterialize.eq_def]
    simp [hIg, specRender, ihCs hnc.1, ihRest hnc.2]
  | case9 item rest rel relPath hIg c ihRest =>
    intro hnc
    simp only [noChainsE, Bool.and_eq_true] at hnc
    rw [scaffoldChildren.eq_def, specMaterialize.eq_def]
    simp [hIg, specRender, ihRest hnc.2]

theorem scaffold_linkFree (e : FsEntries) (rel : String) :
    noChainsE e = true → linkFreeE (scaffoldChildren e rel) = true := by
  induction e, rel using scaffoldChildren.induct with
  | case1 rel => intro _; simp [scaffoldChildren, linkFreeE]
  | case2 item node rest rel relPath hIg ihRest =>
    intro hnc
    simp only [noChainsE, Bool.and_eq_true] at hnc
    rw [scaffold_skip _ _ _ _ hIg]
    exact ihRest hnc.2
  | case3 item rest rel relPath hIg ihRest =>
    intro hnc
    simp only [noChainsE, Bool.and_eq_true] at hnc
    rw [scaffoldChildren.eq_def]
    simp [hIg, ihRest hnc.2]
  | case4 item rest rel relPath hIg targetRel cs hlive ihCs ihRest =>
    intro hnc
    simp only [noChainsE, noChainsN, Bool.and_eq_true] at hnc
    rw [scaffoldChildren.eq_def]
    simp [hIg, chainLive, linkFreeE, linkFreeN, ihCs hnc.1, ihRest hnc.2]
  | case5 item rest rel relPath hIg targetRel c hlive ihRest =>
    intro hnc
    simp only [noChainsE, Bool.and_eq_true] at hnc
    rw [scaffoldChildren.eq_def]
    simp [hIg, chainLive, linkFreeE, linkFreeN, ihRest hnc.2]
  | case6 item rest rel relPath hIg targetRel resolved hlive ihRest =>
    intro hnc
    simp [noChainsE, noChainsN] at hnc
  | case7 item rest rel relPath hIg targetRel t hNotLive ihRest =>
    intro hnc
    simp only [noChainsE, Bool.and_eq_true] at hnc
    cases t with
    | file c => simp [chainLive] at hNotLive
    | dir cs => simp [chainLive] at hNotLive
    | symlink r =>
      have := hnc.1
      simp [noChainsN] at this
  | case8 item rest rel relPath hIg cs ihCs ihRest =>
    intro hnc
    simp only [noChainsE, noChainsN, Bool.and_eq_true] at hnc
    rw [scaffoldChildren.eq_def]
    simp [hIg, linkFreeE, linkFreeN, ihCs hnc.1, ihRest hnc.2]
  | case9 item rest rel relPath hIg c ihRest =>
    intro hnc
    simp only [noChainsE, Bool.and_eq_true] at hnc
    rw [scaffoldChildren.eq_def]
    simp [hIg, linkFreeE, linkFreeN, ihRest hnc.2]

/-- C1 (amended): for every template tree in which no symbolic link resolves
to a path that is itself a symbolic link, running the materializer from the
template into an empty destination produces exactly the specification-side
tree — the template's structure minus every entry matching the ignore rules,
with every symbolic link whose target exists replaced by a physical copy
(file content, or recursively materialized directory) of its resolved target
— and the destination contains no symbolic links.  The original claim,
stated without the chain-freedom proviso, is refuted by
C1_link_chain_counterexample. -/
theorem C1_materializer_refines_spec (root : FsEntries) (h : noChainsE root = true) :
    instantScaffold root = specMaterialize root "" ∧
      linkFreeE (instantScaffold root) = true :=
  ⟨scaffold_eq_spec root "" h, scaffold_linkFree root "" h⟩

/-- C1 counterexample: in a template where lnk resolves to mid, itself a live
symbolic link to data.txt, lstat of the resolved path reports neither a
directory nor a regular file, so the code's fs.copy branch reproduces the
link verbatim and the destination contains a symbolic link — refuting the
claim that no symbolic links are present in the destination. -/
theorem C1_link_chain_counterexample :
    linkFreeE (instantScaffold chainTemplate) = false := by
  rfl

/-- Witness for C1: on a concrete chain-free template with a kept directory,
an ignored node_modules directory and a live directory link, the materializer
output equals the specification tree and is link-free. -/
theorem C1_witness :
    instantScaffold egTemplate = specMaterialize egTemplate "" ∧
      linkFreeE (instantScaffold egTemplate) = true :=
  C1_materializer_refines_spec egTemplate (by decide)

/-- C2: a rule without a wildcard matches exactly when the base name or the
root-relative path equals the rule verbatim; the rule node_modules therefore
matches an entry of that name whatever its root-relative path (any depth);
and an entry the filter matches contributes nothing to the destination, so a
matched directory's entire subtree is absent. -/
theorem C2_literal_rule_semantics :
    (∀ p b r, p.toList.contains '*' = false →
        matchesRule p b r = (b == p || r == p))
    ∧ (∀ rel, shouldIgnore "node_modules" rel = true)
    ∧ (∀ item node rest rel, shouldIgnore item (childRel rel item) = true →
        scaffoldChildren (.cons item node rest) rel = scaffoldChildren rest rel) := by
  refine ⟨?_, ?_, scaffold_skip⟩
  · intro p b r h
    simp only [matchesRule]
    rw [if_neg (by simpa using h)]
  · intro rel
    refine List.any_eq_true.mpr ⟨"node_modules", by decide, ?_⟩
    simp only [matchesRule]
    rw [if_neg (by decide)]
    simp

/-- Witness for C2: a node_modules directory nested below apps is matched and
its whole subtree is dropped from the destination. -/
theorem C2_witness :
    scaffoldChildren (.cons "node_modules" (.dir (.cons "junk" (.file "j") .nil)) .nil)
      "apps" = .nil := by
  rw [C2_literal_rule_semantics.2.2 "node_modules" (.dir (.cons "junk" (.file "j") .nil))
    .nil "apps" (C2_literal_rule_semantics.2.1 (childRel "apps" "node_modules"))]
  rfl

/-- C3: a symbolic link whose resolution failed or whose resolved path does
not exist produces no destination entry and does not abort: materialization
of the remaining entries proceeds exactly as if the link were absent. -/
theorem C3_broken_symlink_skipped :
    (∀ item rest rel,
        scaffoldChildren (.cons item (.symlink .dead) rest) rel = scaffoldChildren rest rel)
    ∧ (∀ item rest rel targetRel t, chainLive t = false →
        scaffoldChildren (.cons item (.symlink (.target targetRel t)) rest) rel =
          scaffoldChildren rest rel) := by
  constructor
  · intro item rest rel
    rw [scaffoldChildren.eq_def]
    by_cases hIg : shouldIgnore item (childRel rel item) = true <;> simp [hIg]
  · intro item rest rel targetRel t h
    rw [scaffoldChildren.eq_def]
    by_cases hIg : shouldIgnore item (childRel rel item) = true <;> simp [hIg, h]

/-- Witness for C3: a link to a dead link chain is dropped while the
following regular file is still materialized. -/
theorem C3_witness :
    scaffoldChildren (.cons "broken" (.symlink (.target "gone" (.symlink .dead)))
        (.cons "a.txt" (.file "hi") .nil)) "" =
      .cons "a.txt" (.file "hi") .nil := by
  rw [C3_broken_symlink_skipped.2 "broken" (.cons "a.txt" (.file "hi") .nil) "" "gone"
    (.symlink .dead) (by decide)]
  rfl

/-- C9: a pattern containing an asterisk is tested as an unanchored regular
expression obtained by replacing each asterisk with dot-star while the dot
stays a metacharacter; under the built-in rule the test is equivalent to
containing any non-line-terminator character immediately followed by the text
env, so every entry whose base name contains such a sequence — not only env
files — is matched by the filter and skipped by the materializer. -/
theorem C9_wildcard_regex_semantics :
    (∀ s, regexTest "*.env*" s = hasCharEnv s.toList)
    ∧ (∀ b r, hasCharEnv b.toList = true → shouldIgnore b r = true)
    ∧ (∀ item node rest rel, hasCharEnv item.toList = true →
        scaffoldChildren (.cons item node rest) rel = scaffoldChildren rest rel) :=
  ⟨regexTest_env, env_ignored,
    fun item node rest rel h => scaffold_skip item node rest rel (env_ignored item _ h)⟩

/-- Witness for C9: the file denver.txt, which is not an env file, is matched
by the built-in wildcard rule and dropped from the destination. -/
theorem C9_witness :
    shouldIgnore "denver.txt" "denver.txt" = true ∧
      scaffoldChildren (.cons "denver.txt" (.file "d") .nil) "" = .nil := by
  constructor
  · exact C9_wildcard_regex_semantics.2.1 "denver.txt" "denver.txt" (by decide)
  · rw [C9_wildcard_regex_semantics.2.2 "denver.txt" (.file "d") .nil "" (by decide)]
    rfl

theorem removeWorkspaceStep_manifest (st : DestState) (pm : String) (f : Bool) :
    (removeWorkspaceStep st pm f).2.manifest = st.manifest := by
  unfold removeWorkspaceStep
  split_ifs <;> rfl

/-- C4: with the root manifest present, configuration sets the manifest name
to the project name; the npm target deletes the packageManager field and
leaves pnpm-workspace.yaml absent; the yarn target pins yarn at 4.0.0,
overwrites workspaces with the two fixed globs and leaves
pnpm-workspace.yaml absent; the pnpm target pins pnpm at 9.0.0 and preserves
whatever pnpm-workspace.yaml state the template shipped; for npm and yarn a
workspace file already absent is not an error (the result is the same). -/
theorem C4_configuration_per_target (m : Manifest) (yaml : Bool) (n : String) :
    (configurePackageManager ⟨some m, yaml⟩ "npm" n =
      ⟨some { m with name := some n, packageManager := none }, false⟩)
    ∧ (configurePackageManager ⟨some m, yaml⟩ "yarn" n =
      ⟨some { m with name := some n, packageManager := some "yarn@4.0.0", workspaces := some ["apps/*", "packages/*"] }, false⟩)
    ∧ (configurePackageManager ⟨some m, yaml⟩ "pnpm" n =
      ⟨some { m with name := some n, packageManager := some "pnpm@9.0.0" }, yaml⟩) := by
  cases yaml <;> refine ⟨?_, ?_, ?_⟩ <;> simp [configurePackageManager, mutateManifest]

/-- C5: the configurator is idempotent — applying it twice with the same
package manager kind and project name to any destination state equals
applying it once (and, being a Lean function of the state and the two
strings, it is a pure function of those inputs). -/
theorem C5_configuration_idempotent (st : DestState) (pm n : String) :
    configurePackageManager (configurePackageManager st pm n) pm n =
      configurePackageManager st pm n := by
  obtain ⟨mf, yaml⟩ := st
  cases mf <;> cases yaml <;>
    by_cases h1 : (pm == "npm") = true <;> by_cases h2 : (pm == "yarn") = true <;>
      simp [configurePackageManager, mutateManifest, h1, h2]

/-- C6: the manifest is never observed partially mutated — whatever the fault
pattern of the run, the manifest on disk is either the original or the fully
mutated one (name and package-manager branch applied together); a failing
read aborts the run with the manifest untouched, and a failing write aborts
the run with the manifest untouched. -/
theorem C6_manifest_mutation_atomic (st : DestState) (pm n : String) (fault : Nat → Bool) :
    ((configurePackageManagerRun st pm n fault).2.manifest = st.manifest ∨
      (configurePackageManagerRun st pm n fault).2.manifest =
        st.manifest.map (fun m => mutateManifest m pm n))
    ∧ (∀ m, st.manifest = some m → fault 0 = true →
        configurePackageManagerRun st pm n fault = (some .readFailed, st))
    ∧ (∀ m, st.manifest = some m → fault 0 = false → fault 1 = true →
        configurePackageManagerRun st pm n fault = (some .writeFailed, st)) := by
  obtain ⟨mf, yaml⟩ := st
  cases mf with
  | none =>
    refine ⟨Or.inl ?_, ?_, ?_⟩
    · simp [configurePackageManagerRun, removeWorkspaceStep_manifest]
    · intro m hm
      simp at hm
    · intro m hm
      simp at hm
  | some m0 =>
    cases hf0 : fault 0 with
    | true =>
      refine ⟨Or.inl ?_, ?_, ?_⟩
      · simp [configurePackageManagerRun, hf0]
      · intro m hm _
        simp [configurePackageManagerRun, hf0]
      · intro m hm h0
        simp [hf0] at h0
    | false =>
      cases hf1 : fault 1 with
      | true =>
        refine ⟨Or.inl ?_, ?_, ?_⟩
        · simp [configurePackageManagerRun, hf0, hf1]
        · intro m hm h0
          simp [hf0] at h0
        · intro m hm _ _
          simp [configurePackageManagerRun, hf0, hf1]
      | false =>
        refine ⟨Or.inr ?_, ?_, ?_⟩
        · simp [configurePackageManagerRun, hf0, hf1, removeWorkspaceStep_manifest]
        · intro m hm h0
          simp [hf0] at h0
        · intro m hm _ h1
          simp [hf1] at h1

/-- Witness for C6: a failing readJson aborts the run and leaves the
destination state untouched. -/
theorem C6_witness :
    configurePackageManagerRun ⟨some egManifest, true⟩ "npm" "demo" (fun i => i == 0) =
      (some .readFailed, ⟨some egManifest, true⟩) :=
  (C6_manifest_mutation_atomic ⟨some egManifest, true⟩ "npm" "demo" (fun i => i == 0)).2.1
    egManifest rfl rfl

/-- C10: every package-manager string other than npm and yarn — not just
pnpm — takes the default branch, pinning pnpm@9.0.0 in the manifest and
leaving pnpm-workspace.yaml alone; and such arbitrary strings are reachable,
since the key=value argument form passes the text after the equals sign
through verbatim. -/
theorem C10_default_pnpm_branch :
    (∀ m yaml pm n, pm ≠ "npm" → pm ≠ "yarn" →
        configurePackageManager ⟨some m, yaml⟩ pm n =
          ⟨some { m with name := some n, packageManager := some "pnpm@9.0.0" }, yaml⟩)
    ∧ parsePackageManager ["--package-manager=bun"] "npm" = "bun" := by
  constructor
  · intro m yaml pm n h1 h2
    have b1 : (pm == "npm") = false := beq_eq_false_iff_ne.mpr h1
    have b2 : (pm == "yarn") = false := beq_eq_false_iff_ne.mpr h2
    simp [configurePackageManager, mutateManifest, b1, b2]
  · rfl

/-- Witness for C10: the unsupported selector bun is configured exactly like
pnpm, with the workspace file preserved. -/
theorem C10_witness :
    configurePackageManager ⟨some egManifest, true⟩ "bun" "demo" =
      ⟨some { egManifest with name := some "demo", packageManager := some "pnpm@9.0.0" },
        true⟩ :=
  C10_default_pnpm_branch.1 egManifest true "bun" "demo" (by decide) (by decide)

/-- C7: evaluation of the claim at a failing input.  In an interactive run
(argv empty) with prompted project name demo, a scaffolding failure lands in
the catch block, which recomputes the cleanup directory as args[0] || my-app:
the run exits 1, but the directory that was being materialized (demo) is
left on disk while a pre-existing, unrelated my-app directory is removed —
the code does not remove the target directory the claim (and the code's own
cleanup message) refers to. -/
theorem C7_cleanup_wrong_directory :
    mainProjectName [] "demo" = "demo"
    ∧ cleanupProjectName [] = "my-app"
    ∧ mainRun [] "demo" ["my-app"] true false = (.exitFailure, ["demo"]) := by
  exact ⟨rfl, rfl, rfl⟩

/-- C8: when the target directory already exists before scaffolding begins,
main refuses the operation with exit code 1 and the filesystem is returned
exactly as it was — nothing written, nothing removed. -/
theorem C8_existing_target_refused (args : List String) (promptedName : String)
    (fs : List String) (scaffoldFails removeFails : Bool)
    (h : fs.contains (mainProjectName args promptedName) = true) :
    mainRun args promptedName fs scaffoldFails removeFails = (.exitFailure, fs) := by
  simp only [mainRun, h, if_true]

/-- Witness for C8: a run named demo against a filesystem already holding a
demo directory is refused and the filesystem is unchanged. -/
theorem C8_witness :
    mainRun ["demo"] "x" ["demo", "other"] true false = (.exitFailure, ["demo", "other"]) :=
  C8_existing_target_refused ["demo"] "x" ["demo", "other"] true false (by decide)
